import Mathlib

/-!
Shallow embedding of `src/download_noaa.py` (NOAA CORS batch downloader).

The script's external effects (HTTP HEAD probes, the `curl` downloader
subprocess, gzip decompression, `os.remove`, and the `CRX2RNX` converter
subprocess) are modelled by an explicit oracle record `NoaaDL.Env`
describing each external operation's outcome, and the contents of the
single target download directory are modelled as a list of file names
(`NoaaDL.FS`) threaded through every step.  Each Python function of the
source becomes a Lean function of the same name over this state.
-/

set_option maxRecDepth 8192

namespace NoaaDL

/-- Drop the last `n` characters of a string (Python `s[:-n]`,
`Substring.dropRight`), implemented over the character list so that it
reduces computationally. -/
def str_dropRight (s : String) (n : Nat) : String :=
  String.mk (s.data.take (s.data.length - n))

/-- Whether `suffix` is a suffix of `s` (Python `s.endswith(suffix)`),
implemented over the character lists. -/
def str_endsWith (s suffix : String) : Bool :=
  suffix.data.isSuffixOf s.data

/-- Lower-case every character (Python `s.lower()`, ASCII range). -/
def str_toLower (s : String) : String :=
  String.mk (s.data.map Char.toLower)

/-- The files currently present in the task's download directory,
as a duplicate-free list of file names. -/
abbrev FS := List String

/-- Creation (or overwrite) of a file on disk: set-like insertion. -/
def fsInsert (fs : FS) (p : String) : FS :=
  if p ∈ fs then fs else p :: fs

/-- Oracle for the outcomes of the script's external operations.

* `head i`: outcome of the i-th `requests.head` attempt inside
  `is_url_available` — `none` models a raised
  `requests.exceptions.RequestException`, `some c` a completed response
  with HTTP status code `c` (src lines 28-34).
* `curlOk`: whether the `curl` subprocess exits with code zero
  (src lines 183-187; `check=True` raises on non-zero exit).
* `unzipOk`: whether gzip decompression of an existing archive succeeds
  (src lines 52-60; a missing source archive always fails).
* `removeOk p`: whether `os.remove p` succeeds when `p` exists
  (src lines 40-45; removing a missing path always fails).
* `crx2rnxExitZero`: whether the CRX2RNX subprocess exits zero — the
  source only prints a diagnostic when it does not (src lines 90-91),
  so this flag has no effect on the modelled state.
* `crx2rnxCreates`: whether the CRX2RNX subprocess produces the expected
  sibling output file as its side effect (src lines 83-94). -/
structure Env where
  head : Nat → Option Nat
  curlOk : Bool
  unzipOk : Bool
  removeOk : String → Bool
  crx2rnxExitZero : Bool
  crx2rnxCreates : Bool

/-- Loop body of `is_url_available` (src lines 28-35): `k` attempts remain,
`i` is the index of the current attempt.  Returns
(result, number of HEAD calls made, number of failure diagnostics printed).
A completed response returns immediately with `status_code == 200`; an
exception prints a diagnostic, sleeps `delay`, and moves to the next
attempt; an exhausted loop returns `false`. -/
def is_url_available_go (head : Nat → Option Nat) : Nat → Nat → Bool × Nat × Nat
  | 0, _ => (false, 0, 0)
  | Nat.succ k, i =>
    match head i with
    | some code => (code == 200, 1, 0)
    | none =>
      let r := is_url_available_go head k (i + 1)
      (r.fst, r.snd.fst + 1, r.snd.snd + 1)

/-- Model of `is_url_available(url, retries=3, delay=5)` (src lines 21-35).
The url and the wall-clock delay do not affect the modelled state; the
per-attempt outcomes are read from the `head` oracle.  The Python default
`retries=3` is passed explicitly at the call site in `download_files`. -/
def is_url_available (head : Nat → Option Nat) (retries : Nat) : Bool × Nat × Nat :=
  is_url_available_go head retries 0

/-- Model of `remove_file` (src lines 38-45): `os.remove`, catching every
exception.  Returns whether removal succeeded, together with the new
directory state.  `os.remove` raises when the path is missing or when the
oracle denies the removal; the catch turns either into a `false` return
(with a printed diagnostic), never a propagated exception. -/
def remove_file (env : Env) (fs : FS) (file_path : String) : Bool × FS :=
  if file_path ∈ fs ∧ env.removeOk file_path = true then
    (true, fs.erase file_path)
  else
    (false, fs)

/-- Model of `pathlib.Path.with_suffix('')`: strip the last dotted suffix
of a file name, keeping a name with no dot unchanged. -/
def with_suffix_empty (s : String) : String :=
  match s.data.reverse.dropWhile (fun c => c ≠ '.') with
  | [] => s
  | _ :: rest => String.mk rest.reverse

/-- Model of `unzip_file(file_dir, gz_path)` (src lines 48-60): decompress
`gz_path` into a sibling with the `.gz` suffix stripped.  Succeeds (and
creates the destination file) iff the archive exists and the gzip stream
is sound; any failure is caught, a diagnostic is printed, and `false` is
returned — the function never raises. -/
def unzip_file (env : Env) (fs : FS) (gz_path : String) : Bool × FS :=
  let dst := with_suffix_empty gz_path
  if gz_path ∈ fs ∧ env.unzipOk = true then
    (true, fsInsert fs dst)
  else
    (false, fs)

/-- Outcome of `handle_hatanaka_rinex`: either the returned file name, or
the `RuntimeError("... was not created by crx2rnx")` raised at src line 94. -/
inductive ConvResult where
  | converted (name : String)
  | notCreated
  deriving Repr, DecidableEq

/-- Model of `handle_hatanaka_rinex(obs_file, data_dir)` (src lines 63-96).
Returns (outcome, new directory state, number of CRX2RNX invocations).

* A name not ending in `"d"` is returned unchanged (src lines 75-76).
* If the expected `.o` sibling already exists, its name is returned at
  once without running the converter (src lines 78-80).  The sibling is
  `src.with_suffix(src.suffix[:-1] + "o")`, i.e. the last character `d`
  swapped to `o`, modelled as `dropRight 1 ++ "o"` (the two agree on every
  name with a dotted suffix ending in `d`, the only names the pipeline
  produces).
* Otherwise CRX2RNX runs; a non-zero exit only prints a diagnostic
  (src lines 90-91).  Whether the sibling now exists is the sole success
  criterion: if it does not, the `RuntimeError` of src line 94 is raised. -/
def handle_hatanaka_rinex (env : Env) (fs : FS) (obs_file : String) :
    ConvResult × FS × Nat :=
  if str_endsWith obs_file "d" = false then
    (ConvResult.converted obs_file, fs, 0)
  else
    let dst := str_dropRight obs_file 1 ++ "o"
    if dst ∈ fs then
      (ConvResult.converted dst, fs, 0)
    else
      let fs1 := if env.crx2rnxCreates then fsInsert fs dst else fs
      if dst ∈ fs1 then
        (ConvResult.converted dst, fs1, 1)
      else
        (ConvResult.notCreated, fs1, 1)

/-- Model of Python `f"{n:0w d}"` zero-padding: pad the decimal rendering
of `n` with leading zeros up to width `w` (longer renderings are kept). -/
def pyPad (w n : Nat) : String :=
  let s := Nat.repr n
  if s.length < w then String.mk (List.replicate (w - s.length) '0') ++ s else s

/-- Model of `get_combined_url(date, station_id)` (src lines 99-114), with
the pandas date replaced by its `year` and `dayofyear` components. -/
def get_combined_url (year dayofyear : Nat) (station_id : String) : String :=
  let download_year_full : String := Nat.repr year
  let download_year_last_two : String := pyPad 2 (year % 100)
  let download_day : String := pyPad 3 dayofyear
  let const_url : String := "https://noaa-cors-pds.s3.amazonaws.com/rinex"
  let changing_url : String :=
    download_year_full ++ "/" ++ download_day ++ "/" ++ station_id ++ "/" ++
      station_id ++ download_day ++ "0." ++ download_year_last_two ++ "d.gz"
  const_url ++ "/" ++ changing_url

/-- Left-pad a string with zeros to width `w`. -/
def zeroPad (w : Nat) (s : String) : String :=
  String.mk (List.replicate (w - s.length) '0') ++ s

/-- Modelled from the spec: the fixed URL path pattern of section 4.2,
`<archive-root>/<year>/<3-digit-day-of-year>/<station>/<station><3-digit-day-of-year>0.<2-digit-year>d.gz`,
written independently of `get_combined_url` for comparison. -/
def url_pattern_spec (year dayofyear : Nat) (station : String) : String :=
  "https://noaa-cors-pds.s3.amazonaws.com/rinex/" ++ Nat.repr year ++ "/" ++
    zeroPad 3 (Nat.repr dayofyear) ++ "/" ++ station ++ "/" ++ station ++
    zeroPad 3 (Nat.repr dayofyear) ++ "0." ++
    zeroPad 2 (Nat.repr (year % 100)) ++ "d.gz"

/-- Gregorian leap-year test (models the calendar used by pandas dates). -/
def isLeapYear (y : Nat) : Bool :=
  (y % 4 == 0 && y % 100 != 0) || (y % 400 == 0)

/-- Number of days of month `m` (1-based) of year `y`. -/
def daysInMonth (y m : Nat) : Nat :=
  if m == 2 then (if isLeapYear y then 29 else 28)
  else if m == 4 || m == 6 || m == 9 || m == 11 then 30
  else 31

/-- Model of `pandas.Timestamp.dayofyear`: 1-based ordinal day of the year
of the date (y, m, d). -/
def dayOfYear (y m d : Nat) : Nat :=
  (List.range (m - 1)).foldl (fun acc i => acc + daysInMonth y (i + 1)) 0 + d

/-- Model of a pandas DataFrame as read from a CSV: named columns of
string values. -/
structure DataFrame where
  cols : List (String × List String)
  deriving Repr, DecidableEq

/-- Column names of a data frame (`df.columns`). -/
def DataFrame.columns (df : DataFrame) : List String :=
  df.cols.map Prod.fst

/-- Values of a column (`df[c].tolist()`); empty when the column is absent. -/
def DataFrame.get (df : DataFrame) (c : String) : List String :=
  match df.cols.find? (fun p => p.fst == c) with
  | some p => p.snd
  | none => []

/-- Outcome of `get_station_ids`: the raised `FileNotFoundError`
(src line 136), the raised `ValueError` (src line 143), or the returned
list of lower-cased station ids (src lines 138-141). -/
inductive StationIdsResult where
  | fileNotFound
  | invalidSchema
  | ok (ids : List String)
  deriving Repr, DecidableEq

/-- Model of `get_station_ids(station_id_filename, station_id_column_name)`
(src lines 117-143).  `read_csv` models `pandas.read_csv` as a lookup of
the file's parsed content by name, `none` standing for a missing file. -/
def get_station_ids (read_csv : String → Option DataFrame)
    (station_id_filename station_id_column_name : String) : StationIdsResult :=
  match read_csv station_id_filename with
  | none => StationIdsResult.fileNotFound
  | some df =>
    if station_id_column_name ∈ df.columns then
      StationIdsResult.ok ((df.get station_id_column_name).map str_toLower)
    else
      StationIdsResult.invalidSchema

/-- Model of `os.path.basename`: the component after the last slash. -/
def os_path_basename (s : String) : String :=
  String.mk (s.data.reverse.takeWhile (fun c => c ≠ '/')).reverse

/-- Name of the compressed archive a task downloads:
`file_name_gz = os.path.basename(url)` (src line 174). -/
def gz_name (url : String) : String := os_path_basename url

/-- Name of the decompressed intermediate:
`file_path_d = file_path_gz[:-3]` (src lines 176-177). -/
def d_name (url : String) : String := str_dropRight (gz_name url) 3

/-- Name of the final observation file CRX2RNX is expected to produce
(src line 78). -/
def o_name (url : String) : String := str_dropRight (d_name url) 1 ++ "o"

/-- Observable outcome of one `download_files` task: the returned boolean,
the final directory state, the number of `curl` and CRX2RNX subprocess
invocations, whether the availability skip notice (src line 169) was
printed, and whether `unzip_file` printed its failure diagnostic
(src line 59). -/
structure TaskResult where
  ok : Bool
  fs : FS
  curlCalls : Nat
  crxCalls : Nat
  skipNotice : Bool
  unzipDiag : Bool
  deriving Repr, DecidableEq

/-- Model of `download_files(url, download_dir, is_silent=True)`
(src lines 146-211), acting on the directory state `fs`.

* Probe availability with the Python-default 3 retries; on `False`, print
  the skip notice and return `False` (src lines 168-170).
* Run `curl` (the `is_silent` flag only selects the argv and is not
  modelled); a non-zero exit is caught and the task returns `False`
  (src lines 183-191); on success the archive file appears on disk.
* Call `unzip_file` — its boolean result is IGNORED by the source — then
  best-effort remove the archive (src lines 194-197).  Neither callee can
  raise, so the `except` of src lines 198-200 is unreachable.
* Call `handle_hatanaka_rinex`; its `RuntimeError` is caught at
  src lines 207-209, skipping the removal of the decompressed
  intermediate at src lines 205-206 and returning `False`.  On a returned
  name, best-effort remove the intermediate and return `True`. -/
def download_files (env : Env) (fs : FS) (url : String) : TaskResult :=
  if (is_url_available env.head 3).fst = true then
    let file_name_gz := gz_name url
    let file_name_d := d_name url
    if env.curlOk = true then
      let fs1 := fsInsert fs file_name_gz
      let u := unzip_file env fs1 file_name_gz
      let r1 := remove_file env u.snd file_name_gz
      match handle_hatanaka_rinex env r1.snd file_name_d with
      | (ConvResult.notCreated, fs4, k) =>
        { ok := false, fs := fs4, curlCalls := 1, crxCalls := k,
          skipNotice := false, unzipDiag := !u.fst }
      | (ConvResult.converted _, fs4, k) =>
        let r2 := remove_file env fs4 file_name_d
        { ok := true, fs := r2.snd, curlCalls := 1, crxCalls := k,
          skipNotice := false, unzipDiag := !u.fst }
    else
      { ok := false, fs := fs, curlCalls := 1, crxCalls := 0,
        skipNotice := false, unzipDiag := false }
  else
    { ok := false, fs := fs, curlCalls := 0, crxCalls := 0,
      skipNotice := true, unzipDiag := false }

/-- A run date, reduced to the two components the script reads from a
pandas date: the year and the 1-based day of year. -/
structure CalDate where
  year : Nat
  doy : Nat
  deriving Repr, DecidableEq

/-- Target directory of a date: `f'daily/{date.year}/{date.dayofyear:03d}'`
(src line 233). -/
def download_dir_name (d : CalDate) : String :=
  "daily/" ++ Nat.repr d.year ++ "/" ++ pyPad 3 d.doy

/-- One submitted unit of work: the url and target directory passed to
`download_files` (src line 234). -/
structure DlTask where
  url : String
  dir : String
  deriving Repr, DecidableEq

/-- The task built for one (date, station) pair (src lines 232-234). -/
def mk_task (d : CalDate) (station : String) : DlTask :=
  { url := get_combined_url d.year d.doy station, dir := download_dir_name d }

/-- The list of tasks submitted by `main`'s nested loops — dates outer,
stations inner (src lines 228-234). -/
def main_submitted : List CalDate → List String → List DlTask
  | [], _ => []
  | d :: ds, stations => stations.map (mk_task d) ++ main_submitted ds stations

/-- `total_expected_downloads` of src line 226. -/
def total_expected_downloads (dates : List CalDate) (stations : List String) : Nat :=
  dates.length * stations.length

/-- The success counter of src lines 236-242: number of `True` outcomes
among the collected task results. -/
def num_successful_downloads (outcomes : List Bool) : Nat :=
  outcomes.count true

/-- The pair printed by the run summary (src line 247):
(successful count, total expected), with each task's boolean outcome
given by `outcome`. -/
def run_summary (dates : List CalDate) (stations : List String)
    (outcome : DlTask → Bool) : Nat × Nat :=
  (num_successful_downloads ((main_submitted dates stations).map outcome),
    total_expected_downloads dates stations)

/-! Concrete fixtures used by witnesses and counterexamples: the example
station-day of the spec (station `abcd`, date 2025-04-10, day of year
100) and oracle environments for the relevant external outcomes. -/

/-- The URL built for station `abcd` on 2025-04-10. -/
def url_example : String :=
  "https://noaa-cors-pds.s3.amazonaws.com/rinex/2025/100/abcd/abcd1000.25d.gz"

/-- Oracle in which every external operation succeeds and every HEAD
probe completes with status 200. -/
def env_all_ok : Env :=
  { head := fun _ => some 200, curlOk := true, unzipOk := true,
    removeOk := fun _ => true, crx2rnxExitZero := true, crx2rnxCreates := true }

/-- Oracle in which every HEAD probe raises a transport exception. -/
def env_unavailable : Env :=
  { env_all_ok with head := fun _ => none }

/-- Oracle in which the converter subprocess completes but does not
create its expected output file. -/
def env_no_output : Env :=
  { env_all_ok with crx2rnxCreates := false }

/-- Oracle in which gzip decompression fails (corrupt archive) and the
converter creates nothing. -/
def env_bad_gzip : Env :=
  { env_all_ok with unzipOk := false, crx2rnxCreates := false }

/-- Oracle in which everything succeeds except removing the compressed
archive `abcd1000.25d.gz`. -/
def env_rm_gz_fails : Env :=
  { env_all_ok with removeOk := fun p => !(p == "abcd1000.25d.gz") }

/-- Example parsed CSV content: one `SITEID` column with two
mixed-case station ids. -/
def df_example : DataFrame :=
  { cols := [("SITEID", ["CORV", "P198"])] }

/-- Example CSV filesystem: only `station_ids.csv` exists. -/
def read_csv_example : String → Option DataFrame :=
  fun n => if n = "station_ids.csv" then some df_example else none

/-! Helper lemmas. -/

/-- Membership in `fsInsert`. -/
lemma mem_fsInsert (p q : String) (fs : FS) : p ∈ fsInsert fs q ↔ p = q ∨ p ∈ fs := by
  by_cases h : q ∈ fs
  · simp only [fsInsert, if_pos h]
    exact ⟨fun hp => Or.inr hp, fun hp => hp.elim (fun e => e ▸ h) id⟩
  · simp [fsInsert, if_neg h]

/-- Decimal renderings of numbers below 100 have at most two digits. -/
lemma repr_len_le_two (n : Nat) (h : n < 100) : (Nat.repr n).length ≤ 2 :=
  Nat.repr_length n 2 (by norm_num) (by omega)

/-- Decimal renderings of numbers below 1000 have at most three digits. -/
lemma repr_len_le_three (n : Nat) (h : n < 1000) : (Nat.repr n).length ≤ 3 :=
  Nat.repr_length n 3 (by norm_num) (by omega)

/-- Offsets into the pandas-representable year range render as 4 digits. -/
lemma repr_len_year_aux : ∀ k, k < 586 → (Nat.repr (1677 + k)).length = 4 := by decide

/-- Every year of a pandas `Timestamp` (1677-2262) renders as 4 digits. -/
lemma repr_len_year (y : Nat) (h1 : 1677 ≤ y) (h2 : y ≤ 2262) :
    (Nat.repr y).length = 4 := by
  have h := repr_len_year_aux (y - 1677) (by omega)
  rwa [Nat.add_sub_cancel' h1] at h

/-- Python zero-padding of a number is zero-padding of its rendering. -/
lemma pyPad_eq_zeroPad (w n : Nat) : pyPad w n = zeroPad w (Nat.repr n) := by
  unfold pyPad zeroPad
  by_cases h : (Nat.repr n).length < w
  · simp [h]
  · have h0 : w - (Nat.repr n).length = 0 := Nat.sub_eq_zero_of_le (le_of_not_lt h)
    simp [if_neg h, h0]

/-- Length of a zero-padded rendering that fits in the width. -/
lemma pyPad_length (w n : Nat) (h : (Nat.repr n).length ≤ w) :
    (pyPad w n).length = w := by
  unfold pyPad
  by_cases hlt : (Nat.repr n).length < w
  · simp only [if_pos hlt, String.length_append]
    have hm : (String.mk (List.replicate (w - (Nat.repr n).length) '0')).length =
        w - (Nat.repr n).length := by
      show (List.replicate (w - (Nat.repr n).length) '0').length = _
      simp
    rw [hm]
    omega
  · have heq : (Nat.repr n).length = w := le_antisymm h (not_lt.mp hlt)
    simp [if_neg hlt, heq]

/-- String concatenation is associative. -/
lemma str_append_assoc (a b c : String) : a ++ b ++ c = a ++ (b ++ c) := by
  cases a; cases b; cases c
  show String.mk _ = String.mk _
  simp [String.append, List.append_assoc]

/-- Membership of a different name is unchanged by `remove_file`. -/
lemma mem_remove_file_snd (env : Env) (fs : FS) (p q : String) (h : q ≠ p) :
    q ∈ (remove_file env fs p).snd ↔ q ∈ fs := by
  unfold remove_file
  by_cases hc : p ∈ fs ∧ env.removeOk p = true
  · simp [if_pos hc, List.mem_erase_of_ne h]
  · simp [if_neg hc]

/-- The outcome of `handle_hatanaka_rinex` depends on the directory state
only through the presence of the expected output sibling. -/
lemma handle_fst_congr (e e' : Env) (fs fs' : FS) (obs : String)
    (hcr : e.crx2rnxCreates = e'.crx2rnxCreates)
    (hmem : (str_dropRight obs 1 ++ "o") ∈ fs ↔ (str_dropRight obs 1 ++ "o") ∈ fs') :
    (handle_hatanaka_rinex e fs obs).fst = (handle_hatanaka_rinex e' fs' obs).fst := by
  unfold handle_hatanaka_rinex
  cases hend : str_endsWith obs "d" with
  | false => simp [hend]
  | true =>
    simp only [hend]
    by_cases hm : (str_dropRight obs 1 ++ "o") ∈ fs
    · simp [hm, hmem.mp hm]
    · have hm' : (str_dropRight obs 1 ++ "o") ∉ fs' := fun h => hm (hmem.mpr h)
      cases hcre : e.crx2rnxCreates with
      | true =>
        have hcre' : e'.crx2rnxCreates = true := hcr ▸ hcre
        simp [hm, hm', hcre, hcre', mem_fsInsert]
      | false =>
        have hcre' : e'.crx2rnxCreates = false := hcr ▸ hcre
        simp [hm, hm', hcre, hcre']

/-- Exhausting the attempt loop of `is_url_available` with transport
exceptions starting at attempt `i` returns false after `k` HEAD calls
and `k` diagnostics. -/
lemma is_url_available_go_all_none (head : Nat → Option Nat) :
    ∀ k i, (∀ j, j < k → head (i + j) = none) →
      is_url_available_go head k i = (false, k, k) := by
  intro k
  induction k with
  | zero => intro i _; rfl
  | succ k ih =>
    intro i h
    have h0 : head i = none := by simpa using h 0 (Nat.succ_pos k)
    have hrest : ∀ j, j < k → head (i + 1 + j) = none := by
      intro j hj
      have := h (j + 1) (by omega)
      rwa [show i + (j + 1) = i + 1 + j by omega] at this
    simp [is_url_available_go, h0, ih (i + 1) hrest]

/-- C4 counterexample: a URL whose HEAD probe completes with status 404 on
the first attempt.  The claim predicts up to 3 attempts, a diagnostic per
failed attempt, and false only after exhausting all retries; the prober
actually returns false after a single attempt, with no retry and no
diagnostic. -/
theorem c4_counterexample :
    is_url_available (fun _ => some 404) 3 = (false, 1, 0) ∧ (1 : Nat) ≠ 3 := by
  exact ⟨rfl, by omega⟩

/-- C4 (amended): on transport-level failures (raised request exceptions)
the prober retries up to the given retry count, printing a diagnostic per
failed attempt, and returns false only after exhausting all retries; but
a completed response with a non-200 status makes it return false
immediately after that single attempt, with no retry and no diagnostic. -/
theorem c4_theorem (head : Nat → Option Nat) (retries c : Nat) :
    ((∀ i, i < retries → head i = none) →
      is_url_available head retries = (false, retries, retries))
    ∧ (0 < retries → head 0 = some c → c ≠ 200 →
      is_url_available head retries = (false, 1, 0)) := by
  constructor
  · intro h
    exact is_url_available_go_all_none head retries 0 (by simpa using h)
  · intro hpos h0 hc
    cases retries with
    | zero => omega
    | succ k =>
      have : (c == 200) = false := beq_eq_false_iff_ne.mpr hc
      simp [is_url_available, is_url_available_go, h0, this]

/-- C4 witness: with every attempt raising, three attempts, three
diagnostics, then false; with an immediate 404 response, one attempt and
false. -/
theorem c4_witness :
    is_url_available (fun _ => none) 3 = (false, 3, 3)
    ∧ is_url_available (fun _ => some 404) 3 = (false, 1, 0) :=
  ⟨(c4_theorem (fun _ => none) 3 0).1 (fun _ _ => rfl),
    (c4_theorem (fun _ => some 404) 3 404).2 (by omega) rfl (by omega)⟩

/-- C5: for every (date, station) input — pandas dates have
`1677 ≤ year ≤ 2262` (so the year renders as 4 digits) and
`dayofyear ≤ 366` — the URL builder produces exactly the fixed pattern
`<archive-root>/<year>/<3-digit-doy>/<station>/<station><3-digit-doy>0.<2-digit-year>d.gz`,
with the day of year zero-padded to exactly 3 digits and the year suffix
zero-padded to exactly 2 digits; and the spec's example date 2025-04-10
(day of year 100) with station `abcd` yields the expected URL. -/
theorem c5_theorem (year dayofyear : Nat) (station : String)
    (h1 : 1677 ≤ year) (h2 : year ≤ 2262) (hd : dayofyear < 1000) :
    get_combined_url year dayofyear station = url_pattern_spec year dayofyear station
    ∧ (Nat.repr year).length = 4
    ∧ (pyPad 3 dayofyear).length = 3
    ∧ (pyPad 2 (year % 100)).length = 2
    ∧ dayOfYear 2025 4 10 = 100
    ∧ get_combined_url 2025 100 "abcd" =
        "https://noaa-cors-pds.s3.amazonaws.com/rinex/2025/100/abcd/abcd1000.25d.gz" := by
  refine ⟨?_, repr_len_year year h1 h2, ?_, ?_, by decide, by decide⟩
  · simp [get_combined_url, url_pattern_spec, pyPad_eq_zeroPad, str_append_assoc]
  · exact pyPad_length 3 dayofyear (repr_len_le_three dayofyear hd)
  · exact pyPad_length 2 (year % 100)
      (repr_len_le_two (year % 100) (Nat.mod_lt year (by norm_num)))

/-- C5 witness: the theorem at the spec's example input. -/
theorem c5_witness :
    get_combined_url 2025 100 "abcd" = url_pattern_spec 2025 100 "abcd"
    ∧ (pyPad 3 100).length = 3 :=
  ⟨(c5_theorem 2025 100 "abcd" (by omega) (by omega) (by omega)).1,
    (c5_theorem 2025 100 "abcd" (by omega) (by omega) (by omega)).2.2.1⟩

/-- C7: station-list loading yields the "file not found" error iff the
named CSV file does not exist, the "invalid schema" error iff the file
exists but lacks the configured station-id column, and otherwise the
column's values lower-cased. -/
theorem c7_theorem (read_csv : String → Option DataFrame)
    (fname col : String) :
    (get_station_ids read_csv fname col = StationIdsResult.fileNotFound ↔
      read_csv fname = none)
    ∧ (get_station_ids read_csv fname col = StationIdsResult.invalidSchema ↔
      ∃ df, read_csv fname = some df ∧ col ∉ df.columns)
    ∧ (∀ df, read_csv fname = some df → col ∈ df.columns →
      get_station_ids read_csv fname col =
        StationIdsResult.ok ((df.get col).map str_toLower)) := by
  refine ⟨?_, ?_, ?_⟩
  · cases hf : read_csv fname with
    | none => simp [get_station_ids, hf]
    | some df =>
      by_cases hc : col ∈ df.columns <;> simp [get_station_ids, hf, hc]
  · cases hf : read_csv fname with
    | none => simp [get_station_ids, hf]
    | some df =>
      by_cases hc : col ∈ df.columns <;> simp [get_station_ids, hf, hc]
  · intro df hdf hcol
    simp [get_station_ids, hdf, hcol]

/-- C7 witness: the example CSV loads, and its mixed-case station ids come
back lower-cased. -/
theorem c7_witness :
    get_station_ids read_csv_example "station_ids.csv" "SITEID" =
      StationIdsResult.ok ["corv", "p198"] := by
  have h := (c7_theorem read_csv_example "station_ids.csv" "SITEID").2.2
    df_example (by decide) (by decide)
  rw [h]
  decide

/-- C8: for a run over `D` dates and `S` stations the coordinator submits
exactly `D * S` tasks, built dates-outer stations-inner, and the run
summary's reported total equals `D * S` whatever the individual task
outcomes are. -/
theorem c8_theorem (dates : List CalDate) (stations : List String)
    (outcome : DlTask → Bool) :
    (main_submitted dates stations).length = dates.length * stations.length
    ∧ main_submitted dates stations =
        (dates.map (fun d => stations.map (mk_task d))).flatten
    ∧ (run_summary dates stations outcome).snd =
        dates.length * stations.length := by
  refine ⟨?_, ?_, rfl⟩
  · induction dates with
    | nil => simp [main_submitted]
    | cons d ds ih =>
      simp [main_submitted, ih, Nat.succ_mul, Nat.add_comm]
  · induction dates with
    | nil => simp [main_submitted]
    | cons d ds ih => simp [main_submitted, ih]

/-- C6: a task whose URL the prober reports unavailable performs zero
downloader invocations, prints the skip notice, reports failure, and
leaves the directory untouched. -/
theorem c6_theorem (env : Env) (fs : FS) (url : String)
    (h : (is_url_available env.head 3).fst = false) :
    download_files env fs url =
      { ok := false, fs := fs, curlCalls := 0, crxCalls := 0,
        skipNotice := true, unzipDiag := false } := by
  simp [download_files, h]

/-- C6 witness: with every HEAD probe raising, the example task is
skipped. -/
theorem c6_witness :
    download_files env_unavailable ["x"] url_example =
      { ok := false, fs := ["x"], curlCalls := 0, crxCalls := 0,
        skipNotice := true, unzipDiag := false } :=
  c6_theorem env_unavailable ["x"] url_example (by decide)

/-- C10: when the expected `.o` sibling of a compact-format file already
exists, the conversion step returns that sibling's name at once, runs no
converter subprocess, and leaves the directory unchanged. -/
theorem c10_theorem (env : Env) (fs : FS) (obs_file : String)
    (hend : str_endsWith obs_file "d" = true)
    (hmem : str_dropRight obs_file 1 ++ "o" ∈ fs) :
    handle_hatanaka_rinex env fs obs_file =
      (ConvResult.converted (str_dropRight obs_file 1 ++ "o"), fs, 0) := by
  simp [handle_hatanaka_rinex, hend, hmem]

/-- C10 witness: converting `abcd1000.25d` with `abcd1000.25o` already on
disk is a no-op returning the existing sibling. -/
theorem c10_witness :
    handle_hatanaka_rinex env_all_ok ["abcd1000.25o"] "abcd1000.25d" =
      (ConvResult.converted "abcd1000.25o", ["abcd1000.25o"], 0) := by
  have h := c10_theorem env_all_ok ["abcd1000.25o"] "abcd1000.25d"
    (by decide) (by decide)
  exact h.trans (by decide)

/-- Unfolding of a task's boolean outcome when the probe succeeds and the
downloader exits zero: it is decided by the conversion step alone. -/
lemma download_ok_eq (env : Env) (fs : FS) (url : String)
    (ha : (is_url_available env.head 3).fst = true) (hc : env.curlOk = true) :
    (download_files env fs url).ok =
      match (handle_hatanaka_rinex env
        (remove_file env
          (unzip_file env (fsInsert fs (gz_name url)) (gz_name url)).snd
          (gz_name url)).snd (d_name url)).fst with
      | ConvResult.notCreated => false
      | ConvResult.converted _ => true := by
  rcases hh : handle_hatanaka_rinex env
      (remove_file env
        (unzip_file env (fsInsert fs (gz_name url)) (gz_name url)).snd
        (gz_name url)).snd (d_name url) with ⟨cr, fs4, k⟩
  cases cr <;> simp [download_files, ha, hc, hh]

/-- The boolean outcome of a task does not depend on the `os.remove`
oracle: two environments equal except possibly in `removeOk` yield the
same outcome. -/
lemma download_ok_removeOk_congr (e1 e2 : Env) (fs0 : FS) (url : String)
    (hh : e1.head = e2.head) (hc : e1.curlOk = e2.curlOk)
    (hu : e1.unzipOk = e2.unzipOk)
    (hcr : e1.crx2rnxCreates = e2.crx2rnxCreates)
    (hog : o_name url ≠ gz_name url) :
    (download_files e1 fs0 url).ok = (download_files e2 fs0 url).ok := by
  cases ha : (is_url_available e1.head 3).fst with
  | false =>
    have ha2 : (is_url_available e2.head 3).fst = false := by rwa [hh] at ha
    simp [download_files, ha, ha2]
  | true =>
    have ha2 : (is_url_available e2.head 3).fst = true := by rwa [hh] at ha
    cases hc1 : e1.curlOk with
    | false =>
      have hc2 : e2.curlOk = false := by rwa [hc] at hc1
      simp [download_files, ha, ha2, hc1, hc2]
    | true =>
      have hc2 : e2.curlOk = true := by rwa [hc] at hc1
      rw [download_ok_eq e1 fs0 url ha hc1, download_ok_eq e2 fs0 url ha2 hc2]
      have hun : unzip_file e1 (fsInsert fs0 (gz_name url)) (gz_name url)
          = unzip_file e2 (fsInsert fs0 (gz_name url)) (gz_name url) := by
        simp [unzip_file, hu]
      rw [hun]
      have hmem : o_name url ∈ (remove_file e1
            (unzip_file e2 (fsInsert fs0 (gz_name url)) (gz_name url)).snd
            (gz_name url)).snd
          ↔ o_name url ∈ (remove_file e2
            (unzip_file e2 (fsInsert fs0 (gz_name url)) (gz_name url)).snd
            (gz_name url)).snd := by
        rw [mem_remove_file_snd e1 _ _ _ hog, mem_remove_file_snd e2 _ _ _ hog]
      have hfst := handle_fst_congr e1 e2 _ _ (d_name url) hcr hmem
      rw [hfst]

/-- C9: the file-removal helper returns false exactly when removal fails
(missing path or denied removal) and never propagates an exception, and
the boolean outcome of a whole task is unchanged by replacing the
`os.remove` oracle — failed best-effort deletions never change the task
outcome. -/
theorem c9_theorem (env : Env) (f : String → Bool) (fs0 fs : FS)
    (p url : String) (hog : o_name url ≠ gz_name url) :
    ((remove_file env fs p).fst = false ↔ ¬ (p ∈ fs ∧ env.removeOk p = true))
    ∧ (download_files { env with removeOk := f } fs0 url).ok =
        (download_files env fs0 url).ok := by
  constructor
  · by_cases hcnd : p ∈ fs ∧ env.removeOk p = true <;> simp [remove_file, hcnd]
  · exact download_ok_removeOk_congr { env with removeOk := f } env fs0 url
      rfl rfl rfl rfl hog

/-- C9 witness: with removal always denied, the example task still
reports the same (successful) outcome, and `remove_file` on a missing
path reports false. -/
theorem c9_witness :
    ((remove_file env_all_ok [] "x").fst = false ↔
      ¬ ("x" ∈ ([] : FS) ∧ env_all_ok.removeOk "x" = true))
    ∧ (download_files { env_all_ok with removeOk := fun _ => false } [] url_example).ok =
        (download_files env_all_ok [] url_example).ok :=
  c9_theorem env_all_ok (fun _ => false) [] [] "x" url_example (by decide)

/-- C1 counterexample: converter completes without creating its output —
the task fails, but the decompressed `.d` intermediate is NOT deleted
(the claim says it is still deleted before the task returns). -/
theorem c1_counterexample :
    (download_files env_no_output [] url_example).ok = false
    ∧ ¬ (d_name url_example ∉ (download_files env_no_output [] url_example).fs) := by
  decide

/-- C1 (amended): when the converter subprocess completes but the expected
`.o` sibling does not exist afterward, the task reports failure, but the
raised error skips the cleanup statement, so the decompressed `.d`
intermediate is NOT deleted: it remains in the directory when the task
returns. -/
theorem c1_theorem (env : Env) (url : String)
    (ha : (is_url_available env.head 3).fst = true)
    (hc : env.curlOk = true)
    (hu : env.unzipOk = true)
    (hcr : env.crx2rnxCreates = false)
    (hend : str_endsWith (d_name url) "d" = true)
    (hsfx : with_suffix_empty (gz_name url) = d_name url)
    (hdg : d_name url ≠ gz_name url)
    (hod : o_name url ≠ d_name url)
    (hog : o_name url ≠ gz_name url) :
    (download_files env [] url).ok = false
    ∧ d_name url ∈ (download_files env [] url).fs
    ∧ (download_files env [] url).crxCalls = 1 := by
  have hod' : str_dropRight (d_name url) 1 ++ "o" ≠ d_name url := hod
  have hog' : str_dropRight (d_name url) 1 ++ "o" ≠ gz_name url := hog
  have h1 : fsInsert ([] : FS) (gz_name url) = [gz_name url] := by
    simp [fsInsert]
  have h2 : unzip_file env [gz_name url] (gz_name url)
      = (true, [d_name url, gz_name url]) := by
    simp [unzip_file, hu, hsfx, fsInsert, hdg]
  cases hrm : env.removeOk (gz_name url) with
  | true =>
    have h3 : remove_file env [d_name url, gz_name url] (gz_name url)
        = (true, [d_name url]) := by
      simp [remove_file, hrm, List.erase_cons, hdg]
    have h4 : handle_hatanaka_rinex env [d_name url] (d_name url)
        = (ConvResult.notCreated, [d_name url], 1) := by
      simp [handle_hatanaka_rinex, hend, hcr, hod']
    simp [download_files, ha, hc, h1, h2, h3, h4]
  | false =>
    have h3 : remove_file env [d_name url, gz_name url] (gz_name url)
        = (false, [d_name url, gz_name url]) := by
      simp [remove_file, hrm]
    have h4 : handle_hatanaka_rinex env [d_name url, gz_name url] (d_name url)
        = (ConvResult.notCreated, [d_name url, gz_name url], 1) := by
      simp [handle_hatanaka_rinex, hend, hcr, hod', hog']
    simp [download_files, ha, hc, h1, h2, h3, h4]

/-- C1 witness: the amended behavior at the example station-day. -/
theorem c1_witness :
    (download_files env_no_output [] url_example).ok = false
    ∧ d_name url_example ∈ (download_files env_no_output [] url_example).fs
    ∧ (download_files env_no_output [] url_example).crxCalls = 1 :=
  c1_theorem env_no_output url_example (by decide) rfl rfl rfl (by decide)
    (by decide) (by decide) (by decide) (by decide)

/-- C2: the task does NOT abort when decompression fails.  With a corrupt
archive and an empty directory, `unzip_file` prints its diagnostic
(`unzipDiag`), yet the archive is deleted and the converter subprocess is
still invoked (`crxCalls = 1`); and when the final `.o` file already
exists, the task even reports success despite the decompression failure. -/
theorem c2_theorem :
    download_files env_bad_gzip [] url_example =
      { ok := false, fs := [], curlCalls := 1, crxCalls := 1,
        skipNotice := false, unzipDiag := true }
    ∧ (download_files { env_all_ok with unzipOk := false }
        ["abcd1000.25o"] url_example).ok = true := by
  decide

/-- C3 counterexample: a task in which everything succeeds except the
best-effort deletion of the compressed archive reports success while the
`.gz` archive is still in the directory — contradicting the claim that a
successful task leaves neither intermediate behind. -/
theorem c3_counterexample :
    (download_files env_rm_gz_fails [] url_example).ok = true
    ∧ gz_name url_example ∈ (download_files env_rm_gz_fails [] url_example).fs := by
  decide

/-- C3 (amended): a task that starts from an empty download directory,
completes successfully, and whose two best-effort deletions are not
denied by the environment ends with the directory containing exactly the
final observation file — neither the `.gz` archive nor the `.d`
intermediate remains. -/
theorem c3_theorem (env : Env) (url : String)
    (hend : str_endsWith (d_name url) "d" = true)
    (hsfx : with_suffix_empty (gz_name url) = d_name url)
    (hdg : d_name url ≠ gz_name url)
    (hod : o_name url ≠ d_name url)
    (hog : o_name url ≠ gz_name url)
    (hrg : env.removeOk (gz_name url) = true)
    (hrd : env.removeOk (d_name url) = true)
    (hok : (download_files env [] url).ok = true) :
    (download_files env [] url).fs = [o_name url] := by
  have hod' : str_dropRight (d_name url) 1 ++ "o" ≠ d_name url := hod
  have hog' : str_dropRight (d_name url) 1 ++ "o" ≠ gz_name url := hog
  have h1 : fsInsert ([] : FS) (gz_name url) = [gz_name url] := by
    simp [fsInsert]
  cases ha : (is_url_available env.head 3).fst with
  | false => simp [download_files, ha] at hok
  | true =>
    cases hc : env.curlOk with
    | false => simp [download_files, ha, hc] at hok
    | true =>
      cases hu : env.unzipOk with
      | true =>
        have h2 : unzip_file env [gz_name url] (gz_name url)
            = (true, [d_name url, gz_name url]) := by
          simp [unzip_file, hu, hsfx, fsInsert, hdg]
        have h3 : remove_file env [d_name url, gz_name url] (gz_name url)
            = (true, [d_name url]) := by
          simp [remove_file, hrg, List.erase_cons, hdg]
        cases hcr : env.crx2rnxCreates with
        | true =>
          have h4 : handle_hatanaka_rinex env [d_name url] (d_name url)
              = (ConvResult.converted (str_dropRight (d_name url) 1 ++ "o"),
                [str_dropRight (d_name url) 1 ++ "o", d_name url], 1) := by
            simp [handle_hatanaka_rinex, hend, hcr, hod', fsInsert]
          have h5 : remove_file env
              [str_dropRight (d_name url) 1 ++ "o", d_name url] (d_name url)
              = (true, [str_dropRight (d_name url) 1 ++ "o"]) := by
            simp [remove_file, hrd, List.erase_cons, hod']
          simp [download_files, ha, hc, h1, h2, h3, h4, h5, o_name]
        | false =>
          have h4 : handle_hatanaka_rinex env [d_name url] (d_name url)
              = (ConvResult.notCreated, [d_name url], 1) := by
            simp [handle_hatanaka_rinex, hend, hcr, hod']
          simp [download_files, ha, hc, h1, h2, h3, h4] at hok
      | false =>
        have h2 : unzip_file env [gz_name url] (gz_name url)
            = (false, [gz_name url]) := by
          simp [unzip_file, hu]
        have h3 : remove_file env [gz_name url] (gz_name url)
            = (true, []) := by
          simp [remove_file, hrg, List.erase_cons]
        cases hcr : env.crx2rnxCreates with
        | true =>
          have h4 : handle_hatanaka_rinex env [] (d_name url)
              = (ConvResult.converted (str_dropRight (d_name url) 1 ++ "o"),
                [str_dropRight (d_name url) 1 ++ "o"], 1) := by
            simp [handle_hatanaka_rinex, hend, hcr, fsInsert]
          have hdo : d_name url ≠ str_dropRight (d_name url) 1 ++ "o" :=
            fun h => hod' h.symm
          have h5 : remove_file env
              [str_dropRight (d_name url) 1 ++ "o"] (d_name url)
              = (false, [str_dropRight (d_name url) 1 ++ "o"]) := by
            simp [remove_file, hdo]
          simp [download_files, ha, hc, h1, h2, h3, h4, h5, o_name]
        | false =>
          have h4 : handle_hatanaka_rinex env [] (d_name url)
              = (ConvResult.notCreated, [], 1) := by
            simp [handle_hatanaka_rinex, hend, hcr]
          simp [download_files, ha, hc, h1, h2, h3, h4] at hok

/-- C3 witness: with every external operation succeeding, the example task
ends with exactly the final observation file. -/
theorem c3_witness :
    (download_files env_all_ok [] url_example).fs = [o_name url_example] :=
  c3_theorem env_all_ok url_example (by decide) (by decide) (by decide)
    (by decide) (by decide) rfl rfl (by decide)

end NoaaDL
